import Mathlib

/-!
Shallow embedding of the AWS-LLM-Deployment serving core
(`config.py`, `cache.py`, `metrics.py`, `app.py`).

Conventions of the embedding:
* Python `float` quantities (times, utilization percentages) are modelled as `ℚ`.
* Python exceptions are modelled with `Except String`; a bare `except:` clause
  becomes a `match` on the `Except` value.
* `hashlib.md5(...).hexdigest()` is embedded as a full MD5 implementation over
  byte lists (`Nat`s below 256), with 32-bit words as `Nat` reduced `% 2^32`.
* Mutable object state (`self.memory_cache`, `self.requests`, the remote redis
  store) is passed and returned explicitly.
-/

/-! ### config.py -/

/-- Embedding of `Config.CACHE_TTL` (`config.py`). -/
def CACHE_TTL : Nat := 3600

/-! ### MD5, embedding `hashlib.md5(text.encode()).hexdigest()` used by
`Cache._get_key` (`cache.py` line 17).  Words are `Nat`s kept below `2^32`
by explicit reduction. -/

/-- The 32-bit word modulus `2^32`. -/
def w32 : Nat := 4294967296

/-- Left-rotate a 32-bit word (input assumed `< 2^32`). -/
def rotl32 (x s : Nat) : Nat := ((x <<< s) % w32) ||| (x >>> (32 - s))

/-- MD5 round function F (rounds 0–15); `¬b` is `b XOR 0xFFFFFFFF` on 32-bit words. -/
def md5F (b c d : Nat) : Nat := (b &&& c) ||| ((b ^^^ 4294967295) &&& d)

/-- MD5 round function G (rounds 16–31). -/
def md5G (b c d : Nat) : Nat := (d &&& b) ||| ((d ^^^ 4294967295) &&& c)

/-- MD5 round function H (rounds 32–47). -/
def md5H (b c d : Nat) : Nat := b ^^^ c ^^^ d

/-- MD5 round function I (rounds 48–63). -/
def md5I (b c d : Nat) : Nat := c ^^^ (b ||| (d ^^^ 4294967295))

/-- The 64 MD5 sine-derived constants `K[i] = floor(2^32 * |sin(i+1)|)`. -/
def md5K : List Nat :=
  [3614090360, 3905402710, 606105819, 3250441966,
   4118548399, 1200080426, 2821735955, 4249261313,
   1770035416, 2336552879, 4294925233, 2304563134,
   1804603682, 4254626195, 2792965006, 1236535329,
   4129170786, 3225465664, 643717713, 3921069994,
   3593408605, 38016083, 3634488961, 3889429448,
   568446438, 3275163606, 4107603335, 1163531501,
   2850285829, 4243563512, 1735328473, 2368359562,
   4294588738, 2272392833, 1839030562, 4259657740,
   2763975236, 1272893353, 4139469664, 3200236656,
   681279174, 3936430074, 3572445317, 76029189,
   3654602809, 3873151461, 530742520, 3299628645,
   4096336452, 1126891415, 2878612391, 4237533241,
   1700485571, 2399980690, 4293915773, 2240044497,
   1873313359, 4264355552, 2734768916, 1309151649,
   4149444226, 3174756917, 718787259, 3951481745]

/-- The 64 MD5 per-round left-rotation amounts. -/
def md5S : List Nat :=
  [7, 12, 17, 22, 7, 12, 17, 22, 7, 12, 17, 22, 7, 12, 17, 22,
   5, 9, 14, 20, 5, 9, 14, 20, 5, 9, 14, 20, 5, 9, 14, 20,
   4, 11, 16, 23, 4, 11, 16, 23, 4, 11, 16, 23, 4, 11, 16, 23,
   6, 10, 15, 21, 6, 10, 15, 21, 6, 10, 15, 21, 6, 10, 15, 21]

/-- Message-word index used in MD5 round `i`. -/
def md5GIdx (i : Nat) : Nat :=
  if i < 16 then i
  else if i < 32 then (5 * i + 1) % 16
  else if i < 48 then (3 * i + 5) % 16
  else (7 * i) % 16

/-- Round function selected for MD5 round `i`. -/
def md5Mix (i b c d : Nat) : Nat :=
  if i < 16 then md5F b c d
  else if i < 32 then md5G b c d
  else if i < 48 then md5H b c d
  else md5I b c d

/-- One MD5 operation on state `(a, b, c, d)` with message words `M`, round `i`. -/
def md5Round (M : List Nat) (st : Nat × Nat × Nat × Nat) (i : Nat) : Nat × Nat × Nat × Nat :=
  match st with
  | (a, b, c, d) =>
    let f := (md5Mix i b c d + a + md5K.getD i 0 + M.getD (md5GIdx i) 0) % w32
    (d, (b + rotl32 f (md5S.getD i 0)) % w32, b, c)

/-- Process one 512-bit chunk (given as its 16 little-endian words) into the MD5 state. -/
def md5Chunk (st : Nat × Nat × Nat × Nat) (M : List Nat) : Nat × Nat × Nat × Nat :=
  match st with
  | (a0, b0, c0, d0) =>
    match (List.range 64).foldl (md5Round M) (a0, b0, c0, d0) with
    | (a, b, c, d) => ((a0 + a) % w32, (b0 + b) % w32, (c0 + c) % w32, (d0 + d) % w32)

/-- Decode a 64-byte chunk into its 16 little-endian 32-bit words. -/
def chunkWords (chunk : List Nat) : List Nat :=
  (List.range 16).map fun j =>
    chunk.getD (4 * j) 0 + 256 * chunk.getD (4 * j + 1) 0 +
      65536 * chunk.getD (4 * j + 2) 0 + 16777216 * chunk.getD (4 * j + 3) 0

/-- MD5 padding: append `0x80`, zero-pad to 56 mod 64, then the bit length as
8 little-endian bytes. -/
def md5Pad (msg : List Nat) : List Nat :=
  let n := msg.length
  let padLen := (119 - n % 64) % 64
  let bitLen := (8 * n) % 18446744073709551616
  msg ++ [128] ++ List.replicate padLen 0 ++ ((List.range 8).map fun i => (bitLen >>> (8 * i)) % 256)

/-- Split a byte list into 64-byte chunks; `fuel` bounds the recursion and is
instantiated with the list length. -/
def chunksOf64 (fuel : Nat) (m : List Nat) : List (List Nat) :=
  match fuel, m with
  | 0, _ => []
  | _, [] => []
  | fuel' + 1, m => m.take 64 :: chunksOf64 fuel' (m.drop 64)

/-- The four final MD5 state words of a byte message. -/
def md5Words (msg : List Nat) : Nat × Nat × Nat × Nat :=
  let padded := md5Pad msg
  (chunksOf64 padded.length padded).foldl (fun st chunk => md5Chunk st (chunkWords chunk))
    (1732584193, 4023233417, 2562383102, 271733878)

/-- Lowercase hexadecimal digit character for `n < 16`. -/
def hexDigitChar (n : Nat) : Char :=
  if n < 10 then Char.ofNat (48 + n) else Char.ofNat (87 + n)

/-- Two lowercase hex characters of a byte. -/
def byteHex (b : Nat) : List Char := [hexDigitChar (b / 16), hexDigitChar (b % 16)]

/-- The four little-endian bytes of a 32-bit word. -/
def wordLEBytes (w : Nat) : List Nat :=
  [w % 256, (w / 256) % 256, (w / 65536) % 256, (w / 16777216) % 256]

/-- Render an MD5 state as the standard 32-character lowercase hex digest. -/
def wordsHex (st : Nat × Nat × Nat × Nat) : String :=
  match st with
  | (a, b, c, d) =>
    String.mk ((wordLEBytes a ++ wordLEBytes b ++ wordLEBytes c ++ wordLEBytes d).flatMap byteHex)

/-- Hex digest of the MD5 of a byte message (Python `hashlib.md5(..).hexdigest()`). -/
def md5Hex (msg : List Nat) : String := wordsHex (md5Words msg)

/-- The MD5 digest packed into a single natural number below `2^128`. -/
def md5Nat (msg : List Nat) : Nat :=
  match md5Words msg with
  | (a, b, c, d) => a + w32 * (b + w32 * (c + w32 * d))

/-- UTF-8 encoding of one character (Python `str.encode()` is UTF-8). -/
def utf8EncodeChar (c : Char) : List Nat :=
  let n := c.toNat
  if n < 128 then [n]
  else if n < 2048 then [192 + n / 64, 128 + n % 64]
  else if n < 65536 then [224 + n / 4096, 128 + (n / 64) % 64, 128 + n % 64]
  else [240 + n / 262144, 128 + (n / 4096) % 64, 128 + (n / 64) % 64, 128 + n % 64]

/-- UTF-8 bytes of a string (`text.encode()`). -/
def strBytes (s : String) : List Nat := s.data.flatMap utf8EncodeChar

/-- Embedding of `Cache._get_key` (`cache.py` lines 16–17):
`hashlib.md5(text.encode()).hexdigest()`. -/
def get_key (text : String) : String := md5Hex (strBytes text)

/-! ### cache.py

The in-process backend (`Config.USE_REDIS` false) keeps `self.memory_cache`, a
Python dict; we model it as an association list with insert-at-front shadowing,
whose lookup (first match) agrees with dict lookup after assignment.
The networked backend keeps a remote redis store, modelled as an association
list on the server plus a `failing` flag: when `failing` is set, every client
call raises (the situation of a network/protocol error). -/

/-- Dict assignment `d[k] = v` (shadowing insert; lookup takes the first match). -/
def dictSet (d : List (String × String)) (k v : String) : List (String × String) :=
  (k, v) :: d

/-- Dict lookup `d.get(k)` returning `None` when absent. -/
def dictGet (d : List (String × String)) (k : String) : Option String :=
  d.lookup k

/-- Embedding of `Cache.get` (`cache.py` lines 19–29), memory branch:
`return self.memory_cache.get(key)`. -/
def memCacheGet (d : List (String × String)) (text : String) : Option String :=
  dictGet d (get_key text)

/-- Embedding of `Cache.set` (`cache.py` lines 31–40), memory branch:
`self.memory_cache[key] = response`. -/
def memCacheSet (d : List (String × String)) (text response : String) :
    List (String × String) :=
  dictSet d (get_key text) response

/-- State of the networked (redis) backend: the remote store plus a flag
saying whether client calls currently fail (network/protocol error). -/
structure RedisState where
  store : List (String × String)
  failing : Bool
deriving DecidableEq, Repr

/-- The redis client `get` call: raises on network failure, else returns the
stored bytes (or `None` when the key is absent or expired). -/
def redisClientGet (r : RedisState) (k : String) : Except String (Option String) :=
  if r.failing then Except.error "ConnectionError" else Except.ok (r.store.lookup k)

/-- The redis client `setex` call: raises on network failure, else stores the
value under the key (TTL expiry is the server's concern and is abstracted). -/
def redisClientSetex (r : RedisState) (k : String) (ttl : Nat) (v : String) :
    Except String RedisState :=
  if r.failing then Except.error "ConnectionError"
  else Except.ok ⟨(k, v) :: r.store, r.failing⟩

/-- Embedding of `Cache.get` (`cache.py` lines 19–29), redis branch:
`try: cached = self.redis_client.get(key); return cached.decode() if cached
else None except: return None`.  Note empty bytes are falsy in Python, hence
the `isEmpty` test. -/
def redisCacheGet (r : RedisState) (text : String) : Option String :=
  match redisClientGet r (get_key text) with
  | Except.ok (some cached) => if cached.isEmpty then none else some cached
  | Except.ok none => none
  | Except.error _ => none

/-- Embedding of `Cache.set` (`cache.py` lines 31–40), redis branch:
`try: self.redis_client.setex(key, Config.CACHE_TTL, response) except: pass`. -/
def redisCacheSet (r : RedisState) (text response : String) : RedisState :=
  match redisClientSetex r (get_key text) CACHE_TTL response with
  | Except.ok r2 => r2
  | Except.error _ => r

/-! ### metrics.py -/

/-- Embedding of the `RequestMetrics` dataclass (`metrics.py` lines 6–14). -/
structure RequestMetrics where
  timestamp : ℚ
  response_time : ℚ
  input_length : Nat
  output_length : Nat
  cache_hit : Bool
  memory_usage : ℚ
  cpu_usage : ℚ
deriving DecidableEq, Repr

/-- Embedding of `MetricsCollector.max_requests` (`metrics.py` line 18). -/
def max_requests : Nat := 1000

/-- Ambient environment of one `record_request` call: the wall clock and the
two `psutil` samples, each of which may raise (modelled as `Except`). -/
structure Telemetry where
  now : ℚ
  virtualMemoryPercent : Except String ℚ
  cpuPercent : Except String ℚ
deriving Repr

/-- The pure tail of `MetricsCollector.record_request` (`metrics.py` lines 35–37):
`self.requests.append(metrics); if len(self.requests) > self.max_requests:
self.requests.pop(0)`. -/
def recordAppend (requests : List RequestMetrics) (m : RequestMetrics) :
    List RequestMetrics :=
  let appended := requests ++ [m]
  if appended.length > max_requests then appended.tail else appended

/-- Embedding of `MetricsCollector.record_request` (`metrics.py` lines 20–37).
The `psutil.virtual_memory().percent` and `psutil.cpu_percent()` calls sit
inside the `RequestMetrics(...)` constructor call with no surrounding
`try`/`except`, so a sampling failure propagates out of `record_request`;
the two samples are evaluated in argument order (memory first). -/
def record_request (env : Telemetry) (requests : List RequestMetrics)
    (start_time : ℚ) (input_text output_text : String) (cache_hit : Bool) :
    Except String (List RequestMetrics) :=
  match env.virtualMemoryPercent with
  | Except.error e => Except.error e
  | Except.ok mem =>
    match env.cpuPercent with
    | Except.error e => Except.error e
    | Except.ok cpu =>
      Except.ok (recordAppend requests
        ⟨env.now, env.now - start_time, input_text.length, output_text.length,
         cache_hit, mem, cpu⟩)

/-- Result of `MetricsCollector.get_stats`: either the no-data marker dict
`{"message": "No requests recorded"}` or the stats dict. -/
inductive StatsResult where
  | noData (message : String)
  | stats (total_requests : Nat) (avg_response_time : ℚ) (cache_hit_rate : ℚ)
      (avg_memory_usage : ℚ) (avg_cpu_usage : ℚ) (latest : Option RequestMetrics)
deriving DecidableEq, Repr

/-- Embedding of `MetricsCollector.get_stats` (`metrics.py` lines 39–52).
Python `self.requests[-100:]` is `drop (length - 100)` (the whole list when
shorter than 100). -/
def get_stats (requests : List RequestMetrics) : StatsResult :=
  if requests.isEmpty then StatsResult.noData "No requests recorded"
  else
    let recent := requests.drop (requests.length - 100)
    StatsResult.stats requests.length
      ((recent.map fun r => r.response_time).sum / (recent.length : ℚ))
      (((recent.filter fun r => r.cache_hit).length : ℚ) / (recent.length : ℚ))
      ((recent.map fun r => r.memory_usage).sum / (recent.length : ℚ))
      ((recent.map fun r => r.cpu_usage).sum / (recent.length : ℚ))
      recent.getLast?

/-! ### app.py, `generate_text` (`app.py` lines 39–89)

The app is built with the default configuration (`USE_REDIS` unset), so the
module-level `cache` uses the memory backend.  The tokenizer/model/decode
steps are the opaque Inference Engine: one request consumes one engine
outcome, an `Except String String` whose `ok` value is the decoded output
`tokenizer.decode(outputs[0], ...)` and whose `error` carries `str(e)`.
The third component of the result counts Inference Engine invocations. -/

/-- Mutable state touched by one request: the cache dict and the metrics list. -/
structure AppState where
  memory_cache : List (String × String)
  requests : List RequestMetrics
deriving DecidableEq, Repr

/-- Outcome of the `/generate` handler: a successful `GenerateResponse`
(response text and `cached` flag), a raised `HTTPException`, or an exception
escaping the handler uncaught. -/
inductive HandlerOutcome where
  | success (response : String) (cached : Bool)
  | httpException (status : Nat) (detail : String)
  | unhandled (message : String)
deriving DecidableEq, Repr

/-- Python truthiness of `cached_response : Optional[str]`: `None` and the
empty string are falsy. -/
def truthyStr (o : Option String) : Bool :=
  match o with
  | some s => !s.isEmpty
  | none => false

/-- Python whitespace characters stripped by `str.strip()` (ASCII range). -/
def isPySpace (c : Char) : Bool :=
  c = ' ' || c = '\t' || c = '\n' || c = '\r' || c = Char.ofNat 11 || c = Char.ofNat 12

/-- Embedding of Python `str.strip()`: drop whitespace from both ends. -/
def pyStrip (s : String) : String :=
  String.mk (((s.data.dropWhile isPySpace).reverse.dropWhile isPySpace).reverse)

/-- The `try:` block of `generate_text` (`app.py` lines 55–89), reached when
the cache lookup was falsy: invoke the engine; on success strip the prompt
prefix (`response[len(request.text):].strip()`), store in the cache, record
metrics and respond; any exception inside the block (engine failure, or a
`psutil` failure during recording) is mapped to
`HTTPException(500, "Generation failed: " + str(e))`. -/
def generateMiss (env : Telemetry) (engine : Except String String) (st : AppState)
    (start_time : ℚ) (text : String) : HandlerOutcome × AppState × Nat :=
  match engine with
  | Except.error e =>
    (HandlerOutcome.httpException 500 ("Generation failed: " ++ e), st, 1)
  | Except.ok output =>
    let response := pyStrip (output.drop text.length)
    let cache2 := memCacheSet st.memory_cache text response
    match record_request env st.requests start_time text response false with
    | Except.ok reqs =>
      (HandlerOutcome.success response false, ⟨cache2, reqs⟩, 1)
    | Except.error e =>
      (HandlerOutcome.httpException 500 ("Generation failed: " ++ e), ⟨cache2, st.requests⟩, 1)

/-- Embedding of the `/generate` handler `generate_text` (`app.py` lines 39–89)
for the memory cache backend.  `if cached_response:` serves from cache only
when the looked-up value is truthy; the cache-hit `record_request` call sits
outside any `try`, so a sampling failure there escapes the handler. -/
def generate_text (env : Telemetry) (engine : Except String String) (st : AppState)
    (start_time : ℚ) (text : String) : HandlerOutcome × AppState × Nat :=
  match memCacheGet st.memory_cache text with
  | some cached_response =>
    if cached_response.isEmpty then generateMiss env engine st start_time text
    else
      match record_request env st.requests start_time text cached_response true with
      | Except.ok reqs => (HandlerOutcome.success cached_response true, ⟨st.memory_cache, reqs⟩, 0)
      | Except.error e => (HandlerOutcome.unhandled e, st, 0)
  | none => generateMiss env engine st start_time text

/-! ### Concrete instances used by witnesses and counterexamples -/

/-- Telemetry environment whose samples succeed (memory 50%, cpu 10%). -/
def envOk : Telemetry := ⟨0, Except.ok 50, Except.ok 10⟩

/-- Telemetry environment where `psutil.virtual_memory()` raises. -/
def envBad : Telemetry := ⟨0, Except.error "psutil unavailable", Except.ok 0⟩

/-- Telemetry environment where memory sampling succeeds but
`psutil.cpu_percent()` raises. -/
def envBadCpu : Telemetry := ⟨0, Except.ok 50, Except.error "cpu gone"⟩

/-- Fresh application state: empty cache dict, empty metrics history. -/
def st0 : AppState := ⟨[], []⟩

/-- Application state whose cache already holds the completion "yo" for the
prompt "hi". -/
def stHit : AppState := ⟨memCacheSet [] "hi" "yo", []⟩

/-- A concrete cache-miss observation (response time 2, memory 50%, cpu 10%). -/
def rmMiss : RequestMetrics := ⟨0, 2, 5, 5, false, 50, 10⟩

/-- A concrete cache-hit observation (response time 2, memory 50%, cpu 10%). -/
def rmHit : RequestMetrics := ⟨0, 2, 5, 5, true, 50, 10⟩

/-- A concrete history of 10 observations, exactly 3 of them cache hits. -/
def exHist10 : List RequestMetrics :=
  [rmHit, rmMiss, rmMiss, rmHit, rmMiss, rmMiss, rmHit, rmMiss, rmMiss, rmMiss]

/-- Injective encoding of 129 booleans as a 129-character string over the
alphabet `a`/`b`; used to exhibit more inputs than MD5 has digests. -/
def boolStr (v : Fin 129 → Bool) : String :=
  String.mk (List.ofFn fun i => cond (v i) 'b' 'a')

/-! ### Helper lemmas -/

/-- Dict lookup immediately after assignment of the same key returns the
assigned value. -/
theorem lookup_insert_self (d : List (String × String)) (k v : String) :
    dictGet (dictSet d k v) k = some v := by
  simp [dictGet, dictSet, List.lookup]

/-- Memory-backend cache round trip, phrased on raw state. -/
theorem memCacheSet_get_self (d : List (String × String)) (text v : String) :
    memCacheGet (memCacheSet d text v) text = some v :=
  lookup_insert_self d (get_key text) v

/-- Cache-miss path with a successful engine call and successful telemetry
sampling: the full result of `generate_text`. -/
theorem generate_text_miss_ok_eq (env : Telemetry) (st : AppState) (t0 : ℚ)
    (text output : String) (mem cpu : ℚ)
    (hmiss : truthyStr (memCacheGet st.memory_cache text) = false)
    (hmem : env.virtualMemoryPercent = Except.ok mem)
    (hcpu : env.cpuPercent = Except.ok cpu) :
    generate_text env (Except.ok output) st t0 text =
      (HandlerOutcome.success (pyStrip (output.drop text.length)) false,
       ⟨memCacheSet st.memory_cache text (pyStrip (output.drop text.length)),
        recordAppend st.requests
          ⟨env.now, env.now - t0, text.length, (pyStrip (output.drop text.length)).length,
           false, mem, cpu⟩⟩, 1) := by
  cases hlook : memCacheGet st.memory_cache text with
  | none => simp [generate_text, hlook, generateMiss, record_request, hmem, hcpu]
  | some s =>
    rw [hlook] at hmiss
    simp only [truthyStr, Bool.not_eq_false'] at hmiss
    simp [generate_text, hlook, hmiss, generateMiss, record_request, hmem, hcpu]

/-- The metrics history after any sequence of appends starting from empty is
the suffix of the appended sequence that fits the capacity. -/
theorem foldl_recordAppend_eq_drop (obs : List RequestMetrics) :
    List.foldl recordAppend [] obs = obs.drop (obs.length - max_requests) := by
  have hmax : max_requests = 1000 := rfl
  induction obs using List.reverseRecOn with
  | nil => rfl
  | append_singleton l m ih =>
    rw [List.foldl_append, List.foldl_cons, List.foldl_nil, ih]
    simp only [recordAppend]
    split
    · -- overflow: the oldest retained entry is evicted
      rename_i hcond
      simp only [List.length_append, List.length_drop, List.length_cons,
        List.length_nil] at hcond
      have hge : max_requests ≤ l.length := by omega
      have hne : l.drop (l.length - max_requests) ≠ [] := by
        intro h
        have hlen := congrArg List.length h
        simp only [List.length_drop, List.length_nil] at hlen
        omega
      rw [List.tail_append_of_ne_nil hne, ← List.drop_one, List.drop_drop]
      rw [show (l ++ [m]).length - max_requests = l.length + 1 - max_requests from by simp]
      rw [List.drop_append_of_le_length (by omega)]
      rw [show l.length - max_requests + 1 = l.length + 1 - max_requests from by omega]
    · -- below capacity: nothing is evicted
      rename_i hcond
      simp only [List.length_append, List.length_drop, List.length_cons,
        List.length_nil] at hcond
      have hlt : l.length < max_requests := by omega
      rw [show l.length - max_requests = 0 from by omega, List.drop_zero]
      rw [show (l ++ [m]).length - max_requests = 0 from by
        simp only [List.length_append, List.length_cons, List.length_nil]; omega]
      rw [List.drop_zero]

/-! ### Claim theorems -/

/-- C1: for the networked (redis) backend, every error raised by the
underlying key-value client during get or set is caught inside the Cache:
get returns `none` (a cache miss) instead of propagating the error, and set
returns the backend state unchanged without propagating the error, so no
cache-backend failure surfaces as a request failure. -/
theorem redis_cache_fail_open (r : RedisState) (text response : String)
    (hfail : r.failing = true) :
    redisCacheGet r text = none ∧ redisCacheSet r text response = r := by
  constructor
  · simp [redisCacheGet, redisClientGet, hfail]
  · simp [redisCacheSet, redisClientSetex, hfail]

/-- Witness for C1: a concrete failing redis backend with one stored entry. -/
theorem redis_cache_fail_open_witness :
    RedisState.failing ⟨[("k", "v")], true⟩ = true ∧
      (redisCacheGet ⟨[("k", "v")], true⟩ "prompt" = none ∧
        redisCacheSet ⟨[("k", "v")], true⟩ "prompt" "output" = ⟨[("k", "v")], true⟩) :=
  ⟨rfl, redis_cache_fail_open ⟨[("k", "v")], true⟩ "prompt" "output" rfl⟩

/-- C3: the metrics history never holds more than 1000 observations: after any
sequence of record operations starting from empty the history size is at most
1000; appending to a full history evicts exactly the oldest entry while
keeping the newer entries in order; and appending 1001 observations to an
empty history leaves exactly 1000, the first one evicted. -/
theorem metrics_history_bounded_fifo :
    (∀ obs : List RequestMetrics, (List.foldl recordAppend [] obs).length ≤ 1000) ∧
      (∀ (h : List RequestMetrics) (m : RequestMetrics), h.length = 1000 →
        recordAppend h m = h.tail ++ [m]) ∧
      (∀ obs : List RequestMetrics, obs.length = 1001 →
        List.foldl recordAppend [] obs = obs.tail ∧
          (List.foldl recordAppend [] obs).length = 1000) := by
  have hmax : max_requests = 1000 := rfl
  refine ⟨fun obs => ?_, fun h m hlen => ?_, fun obs hlen => ?_⟩
  · rw [foldl_recordAppend_eq_drop, List.length_drop]
    omega
  · simp only [recordAppend, List.length_append, List.length_cons, List.length_nil, hlen]
    rw [if_pos (by omega)]
    rw [List.tail_append_of_ne_nil (by intro hnil; rw [hnil] at hlen; simp at hlen)]
  · have h1 := foldl_recordAppend_eq_drop obs
    rw [hlen, hmax] at h1
    constructor
    · rw [h1, show 1001 - 1000 = 1 from rfl, List.drop_one]
    · rw [h1, List.length_drop, hlen]

/-- Witness for C3: the eviction equation applied to a concrete full history,
and the 1001-append equation applied to a concrete 1001-element history. -/
theorem metrics_history_bounded_fifo_witness :
    (List.replicate 1000 rmMiss).length = 1000 ∧
      recordAppend (List.replicate 1000 rmMiss) rmHit
        = (List.replicate 1000 rmMiss).tail ++ [rmHit] ∧
      (List.replicate 1001 rmMiss).length = 1001 ∧
      List.foldl recordAppend [] (List.replicate 1001 rmMiss)
        = (List.replicate 1001 rmMiss).tail :=
  ⟨by rw [List.length_replicate],
   metrics_history_bounded_fifo.2.1 (List.replicate 1000 rmMiss) rmHit
     (by rw [List.length_replicate]),
   by rw [List.length_replicate],
   (metrics_history_bounded_fifo.2.2 (List.replicate 1001 rmMiss)
     (by rw [List.length_replicate])).1⟩

/-- C5: when the Inference Engine call fails on a cache miss, the orchestrator
records no metrics observation, stores nothing in the cache (the whole
application state is unchanged), calls the engine exactly once (no retry),
and surfaces the failure as HTTP 500 with detail `Generation failed: <message>`. -/
theorem engine_failure_surfaces_500 (env : Telemetry) (st : AppState)
    (start_time : ℚ) (text e : String)
    (hmiss : truthyStr (memCacheGet st.memory_cache text) = false) :
    generate_text env (Except.error e) st start_time text =
      (HandlerOutcome.httpException 500 ("Generation failed: " ++ e), st, 1) := by
  cases hlook : memCacheGet st.memory_cache text with
  | none => simp [generate_text, hlook, generateMiss]
  | some s =>
    rw [hlook] at hmiss
    simp only [truthyStr, Bool.not_eq_false'] at hmiss
    simp [generate_text, hlook, hmiss, generateMiss]

/-- Witness for C5: a failing engine on a fresh state. -/
theorem engine_failure_surfaces_500_witness :
    truthyStr (memCacheGet st0.memory_cache "Hello") = false ∧
      generate_text envOk (Except.error "CUDA out of memory") st0 0 "Hello"
        = (HandlerOutcome.httpException 500 "Generation failed: CUDA out of memory", st0, 1) :=
  ⟨by decide,
   engine_failure_surfaces_500 envOk st0 0 "Hello" "CUDA out of memory" (by decide)⟩

/-- C7: on an empty history, `get_stats` returns the explicit no-data marker
`{"message": "No requests recorded"}` (and in particular performs none of the
divisions of the stats branch). -/
theorem get_stats_empty_no_data :
    get_stats [] = StatsResult.noData "No requests recorded" := rfl

/-- C9: for the in-process backend, `set(k, v)` followed immediately by
`get(k)` returns `v`. -/
theorem mem_cache_roundtrip (d : List (String × String)) (text v : String) :
    memCacheGet (memCacheSet d text v) text = some v :=
  memCacheSet_get_self d text v

/-- C2: on a cache miss with a successful engine invocation, the response the
orchestrator returns, and the value it caches under the input text, both equal
the decoded engine output with exactly the first `len(text)` characters
removed and surrounding whitespace trimmed, with `cached = false`. -/
theorem generate_miss_strips_prefix (env : Telemetry) (st : AppState) (t0 : ℚ)
    (text output : String) (mem cpu : ℚ)
    (hmiss : truthyStr (memCacheGet st.memory_cache text) = false)
    (hmem : env.virtualMemoryPercent = Except.ok mem)
    (hcpu : env.cpuPercent = Except.ok cpu) :
    (generate_text env (Except.ok output) st t0 text).1
        = HandlerOutcome.success (pyStrip (output.drop text.length)) false
      ∧ memCacheGet (generate_text env (Except.ok output) st t0 text).2.1.memory_cache text
        = some (pyStrip (output.drop text.length)) := by
  rw [generate_text_miss_ok_eq env st t0 text output mem cpu hmiss hmem hcpu]
  exact ⟨rfl, memCacheSet_get_self _ _ _⟩

/-- Witness for C2: text "Hello" with engine output "Hello world" yields
response "world" with `cached = false`. -/
theorem generate_miss_strips_prefix_witness :
    truthyStr (memCacheGet st0.memory_cache "Hello") = false ∧
      (generate_text envOk (Except.ok "Hello world") st0 0 "Hello").1
        = HandlerOutcome.success "world" false := by
  refine ⟨by decide, ?_⟩
  have h := generate_miss_strips_prefix envOk st0 0 "Hello" "Hello world" 50 10
    (by decide) rfl rfl
  exact h.1.trans (by decide)

/-- C4: for a non-empty history of `n` observations, the stats snapshot
reports `total_requests = n`, while the averages are arithmetic means over
only the last `min(100, n)` observations and the cache-hit rate is the number
of hits in that window divided by `min(100, n)`. -/
theorem get_stats_windowed (requests : List RequestMetrics) (hne : requests ≠ []) :
    (requests.drop (requests.length - min 100 requests.length)).length
        = min 100 requests.length
      ∧ get_stats requests = StatsResult.stats requests.length
        (((requests.drop (requests.length - min 100 requests.length)).map
            fun r => r.response_time).sum / ((min 100 requests.length : Nat) : ℚ))
        ((((requests.drop (requests.length - min 100 requests.length)).filter
            fun r => r.cache_hit).length : ℚ) / ((min 100 requests.length : Nat) : ℚ))
        (((requests.drop (requests.length - min 100 requests.length)).map
            fun r => r.memory_usage).sum / ((min 100 requests.length : Nat) : ℚ))
        (((requests.drop (requests.length - min 100 requests.length)).map
            fun r => r.cpu_usage).sum / ((min 100 requests.length : Nat) : ℚ))
        (requests.drop (requests.length - min 100 requests.length)).getLast? := by
  have hdrop : requests.length - min 100 requests.length = requests.length - 100 := by
    omega
  have hlen : (requests.drop (requests.length - 100)).length
      = min 100 requests.length := by
    rw [List.length_drop]; omega
  rw [hdrop]
  refine ⟨hlen, ?_⟩
  cases requests with
  | nil => exact absurd rfl hne
  | cons a l =>
    simp only [get_stats, List.isEmpty_cons, Bool.false_eq_true, if_false]
    rw [hlen]

/-- Witness for C4: a window of 10 observations with 3 cache hits yields
total 10, mean response time 2, hit rate 3/10, mean memory 50, mean cpu 10. -/
theorem get_stats_windowed_witness :
    exHist10 ≠ [] ∧
      get_stats exHist10
        = StatsResult.stats 10 2 (3 / 10) 50 10 (some rmMiss) := by
  refine ⟨by decide, ?_⟩
  have h := (get_stats_windowed exHist10 (by decide)).2
  refine h.trans ?_
  simp only [exHist10, rmMiss, rmHit, List.length_cons, List.length_nil, List.drop,
    List.map_cons, List.map_nil, List.sum_cons, List.sum_nil, List.filter,
    List.getLast?, StatsResult.stats.injEq]
  norm_num

/-- C6 counterexample: with a cache hit available for "hi" but
`psutil.virtual_memory()` raising, the request is not served: the sampling
failure escapes the handler uncaught (the code has no `try`/`except` around
the telemetry calls and substitutes no sentinel). -/
theorem sampling_failure_not_absorbed_cex :
    (generate_text envBad (Except.error "engine not reached") stHit 0 "hi").1
      = HandlerOutcome.unhandled "psutil unavailable" := by decide

/-- C6 amended: if sampling host memory or CPU utilization fails during
metrics recording (the memory sample is evaluated first, so its message wins
when both fail), the failure propagates instead of being absorbed: on the
cache-hit path the request fails with the exception escaping the handler
uncaught, and on the cache-miss path (after a successful engine call) the
catch-all `except` maps it to HTTP 500 `Generation failed: <message>` with
the completion already cached but no metrics recorded; no sentinel is
substituted on either path. -/
theorem sampling_failure_propagates (env : Telemetry) (st : AppState) (t0 : ℚ)
    (text msg : String)
    (hfail : env.virtualMemoryPercent = Except.error msg ∨
      (∃ m, env.virtualMemoryPercent = Except.ok m) ∧
        env.cpuPercent = Except.error msg) :
    (∀ (eng : Except String String) (s : String),
        memCacheGet st.memory_cache text = some s → s.isEmpty = false →
          generate_text env eng st t0 text = (HandlerOutcome.unhandled msg, st, 0))
      ∧ (∀ output : String, truthyStr (memCacheGet st.memory_cache text) = false →
          generate_text env (Except.ok output) st t0 text =
            (HandlerOutcome.httpException 500 ("Generation failed: " ++ msg),
             ⟨memCacheSet st.memory_cache text (pyStrip (output.drop text.length)),
              st.requests⟩, 1)) := by
  have hrec : ∀ (reqs : List RequestMetrics) (t1 : ℚ) (it ot : String) (ch : Bool),
      record_request env reqs t1 it ot ch = Except.error msg := by
    intro reqs t1 it ot ch
    rcases hfail with hmem | ⟨⟨m, hm⟩, hcpu⟩
    · simp [record_request, hmem]
    · simp [record_request, hm, hcpu]
  constructor
  · intro eng s hlook hs
    simp [generate_text, hlook, hs, hrec]
  · intro output hmiss
    cases hlook : memCacheGet st.memory_cache text with
    | none => simp [generate_text, hlook, generateMiss, hrec]
    | some s =>
      rw [hlook] at hmiss
      simp only [truthyStr, Bool.not_eq_false'] at hmiss
      simp [generate_text, hlook, hmiss, generateMiss, hrec]

/-- Witness for C6 amended: the hit path at a concrete state, once with a
failing memory sampler and once with memory succeeding but the CPU sampler
failing. -/
theorem sampling_failure_propagates_witness :
    (envBad.virtualMemoryPercent = Except.error "psutil unavailable" ∨
        (∃ m, envBad.virtualMemoryPercent = Except.ok m) ∧
          envBad.cpuPercent = Except.error "psutil unavailable") ∧
      memCacheGet stHit.memory_cache "hi" = some "yo" ∧
      generate_text envBad (Except.ok "unused") stHit 0 "hi"
        = (HandlerOutcome.unhandled "psutil unavailable", stHit, 0) ∧
      (envBadCpu.virtualMemoryPercent = Except.error "cpu gone" ∨
        (∃ m, envBadCpu.virtualMemoryPercent = Except.ok m) ∧
          envBadCpu.cpuPercent = Except.error "cpu gone") ∧
      generate_text envBadCpu (Except.ok "unused") stHit 0 "hi"
        = (HandlerOutcome.unhandled "cpu gone", stHit, 0) := by
  refine ⟨Or.inl rfl, by decide, ?_, Or.inr ⟨⟨50, rfl⟩, rfl⟩, ?_⟩
  · exact (sampling_failure_propagates envBad stHit 0 "hi" "psutil unavailable"
      (Or.inl rfl)).1 (Except.ok "unused") "yo" (by decide) (by decide)
  · exact (sampling_failure_propagates envBadCpu stHit 0 "hi" "cpu gone"
      (Or.inr ⟨⟨50, rfl⟩, rfl⟩)).1 (Except.ok "unused") "yo" (by decide) (by decide)

/-- C10: an empty generated completion (engine output equal to the prompt up
to trimmed whitespace) is stored in the cache, but a subsequent identical
request is not served as a cache hit: the truthiness test treats the cached
empty string like an absent entry, the engine is invoked again, and the
request returns `cached = false`. -/
theorem empty_completion_never_cache_hit (env env2 : Telemetry) (st : AppState)
    (t0 t1 : ℚ) (text output output2 : String) (mem cpu mem2 cpu2 : ℚ)
    (hmiss : truthyStr (memCacheGet st.memory_cache text) = false)
    (hempty : pyStrip (output.drop text.length) = "")
    (hmem : env.virtualMemoryPercent = Except.ok mem)
    (hcpu : env.cpuPercent = Except.ok cpu)
    (hmem2 : env2.virtualMemoryPercent = Except.ok mem2)
    (hcpu2 : env2.cpuPercent = Except.ok cpu2) :
    memCacheGet (generate_text env (Except.ok output) st t0 text).2.1.memory_cache text
        = some ""
      ∧ (generate_text env2 (Except.ok output2)
            (generate_text env (Except.ok output) st t0 text).2.1 t1 text).1
          = HandlerOutcome.success (pyStrip (output2.drop text.length)) false
      ∧ (generate_text env2 (Except.ok output2)
            (generate_text env (Except.ok output) st t0 text).2.1 t1 text).2.2 = 1 := by
  rw [generate_text_miss_ok_eq env st t0 text output mem cpu hmiss hmem hcpu, hempty]
  have hmiss2 : truthyStr (memCacheGet (memCacheSet st.memory_cache text "") text)
      = false := by
    rw [memCacheSet_get_self]
    rfl
  have h2 := generate_text_miss_ok_eq env2
    ⟨memCacheSet st.memory_cache text "",
     recordAppend st.requests
       ⟨env.now, env.now - t0, text.length, ("" : String).length, false, mem, cpu⟩⟩
    t1 text output2 mem2 cpu2 hmiss2 hmem2 hcpu2
  exact ⟨memCacheSet_get_self _ _ _, by rw [h2], by rw [h2]⟩

/-- Witness for C10: prompt "Hello" with engine output "Hello" stores the
empty completion; the repeated request re-invokes the engine and returns
`cached = false`. -/
theorem empty_completion_never_cache_hit_witness :
    truthyStr (memCacheGet st0.memory_cache "Hello") = false ∧
      pyStrip (("Hello").drop ("Hello").length) = "" ∧
      memCacheGet
          (generate_text envOk (Except.ok "Hello") st0 0 "Hello").2.1.memory_cache "Hello"
        = some "" ∧
      (generate_text envOk (Except.ok "Hello world")
          (generate_text envOk (Except.ok "Hello") st0 0 "Hello").2.1 0 "Hello").1
        = HandlerOutcome.success "world" false := by
  have h := empty_completion_never_cache_hit envOk envOk st0 0 0 "Hello" "Hello"
    "Hello world" 50 10 50 10 (by decide) (by decide) rfl rfl rfl rfl
  exact ⟨by decide, by decide, h.1, h.2.1.trans (by decide)⟩

/-- Each word produced by one MD5 chunk step is below `2^32`. -/
theorem md5Chunk_lt (st : Nat × Nat × Nat × Nat) (M : List Nat) :
    (md5Chunk st M).1 < w32 ∧ (md5Chunk st M).2.1 < w32 ∧
      (md5Chunk st M).2.2.1 < w32 ∧ (md5Chunk st M).2.2.2 < w32 := by
  obtain ⟨a0, b0, c0, d0⟩ := st
  simp only [md5Chunk]
  rcases h : (List.range 64).foldl (md5Round M) (a0, b0, c0, d0) with ⟨a, b, c, d⟩
  have hw : 0 < w32 := by decide
  exact ⟨Nat.mod_lt _ hw, Nat.mod_lt _ hw, Nat.mod_lt _ hw, Nat.mod_lt _ hw⟩

/-- Each word of an MD5 digest is below `2^32`. -/
theorem md5Words_lt (msg : List Nat) :
    (md5Words msg).1 < w32 ∧ (md5Words msg).2.1 < w32 ∧
      (md5Words msg).2.2.1 < w32 ∧ (md5Words msg).2.2.2 < w32 := by
  rw [md5Words]
  have h : ∀ (chunks : List (List Nat)) (st : Nat × Nat × Nat × Nat),
      st.1 < w32 → st.2.1 < w32 → st.2.2.1 < w32 → st.2.2.2 < w32 →
      ((chunks.foldl (fun st chunk => md5Chunk st (chunkWords chunk)) st).1 < w32 ∧
        (chunks.foldl (fun st chunk => md5Chunk st (chunkWords chunk)) st).2.1 < w32 ∧
        (chunks.foldl (fun st chunk => md5Chunk st (chunkWords chunk)) st).2.2.1 < w32 ∧
        (chunks.foldl (fun st chunk => md5Chunk st (chunkWords chunk)) st).2.2.2 < w32) := by
    intro chunks
    induction chunks with
    | nil => exact fun st h1 h2 h3 h4 => ⟨h1, h2, h3, h4⟩
    | cons c cs ih =>
      intro st h1 h2 h3 h4
      rw [List.foldl_cons]
      have hc := md5Chunk_lt st (chunkWords c)
      exact ih _ hc.1 hc.2.1 hc.2.2.1 hc.2.2.2
  exact h _ _ (by decide) (by decide) (by decide) (by decide)

/-- The packed MD5 digest is below `2^128`. -/
theorem md5Nat_lt (msg : List Nat) : md5Nat msg < 2 ^ 128 := by
  have hb := md5Words_lt msg
  rcases h : md5Words msg with ⟨a, b, c, d⟩
  rw [h] at hb
  simp only [w32] at hb
  simp only [md5Nat, h, w32]
  rw [show (2 : Nat) ^ 128 = 340282366920938463463374607431768211456 from by norm_num]
  omega

/-- Equal packed digests have equal word tuples (base-`2^32` uniqueness). -/
theorem md5Nat_eq_words_eq (m1 m2 : List Nat) (h : md5Nat m1 = md5Nat m2) :
    md5Words m1 = md5Words m2 := by
  have hb1 := md5Words_lt m1
  have hb2 := md5Words_lt m2
  rcases h1 : md5Words m1 with ⟨a1, b1, c1, d1⟩
  rcases h2 : md5Words m2 with ⟨a2, b2, c2, d2⟩
  rw [h1] at hb1
  rw [h2] at hb2
  simp only [w32] at hb1 hb2
  simp only [md5Nat, h1, h2, w32] at h
  simp only [Prod.mk.injEq]
  obtain ⟨hA1, hB1, hC1, hD1⟩ := hb1
  obtain ⟨hA2, hB2, hC2, hD2⟩ := hb2
  refine ⟨by omega, by omega, by omega, by omega⟩

/-- Hex digit characters are distinct for distinct digits below 16. -/
theorem hexDigitChar_inj : ∀ m < 16, ∀ n < 16,
    hexDigitChar m = hexDigitChar n → m = n := by decide

/-- Hex rendering is injective on byte lists (bytes below 256). -/
theorem flatMap_byteHex_inj : ∀ l1 l2 : List Nat, (∀ b ∈ l1, b < 256) →
    (∀ b ∈ l2, b < 256) → l1.flatMap byteHex = l2.flatMap byteHex → l1 = l2 := by
  intro l1
  induction l1 with
  | nil =>
    intro l2 _ _ h
    cases l2 with
    | nil => rfl
    | cons b t => simp [byteHex] at h
  | cons b1 t1 ih =>
    intro l2 hb1 hb2 h
    cases l2 with
    | nil => simp [byteHex] at h
    | cons b2 t2 =>
      simp only [List.flatMap_cons, byteHex, List.cons_append, List.nil_append] at h
      injection h with ha h'
      injection h' with hb h''
      have hlt1 : b1 < 256 := hb1 b1 (by simp)
      have hlt2 : b2 < 256 := hb2 b2 (by simp)
      have e1 : b1 / 16 = b2 / 16 :=
        hexDigitChar_inj (b1 / 16) (by omega) (b2 / 16) (by omega) ha
      have e2 : b1 % 16 = b2 % 16 :=
        hexDigitChar_inj (b1 % 16) (by omega) (b2 % 16) (by omega) hb
      have hbb : b1 = b2 := by omega
      subst hbb
      rw [ih t2 (fun b hb => hb1 b (List.mem_cons_of_mem _ hb))
        (fun b hb => hb2 b (List.mem_cons_of_mem _ hb)) h'']

/-- All little-endian bytes of a word are below 256. -/
theorem wordLEBytes_lt (w : Nat) : ∀ x ∈ wordLEBytes w, x < 256 := by
  intro x hx
  simp only [wordLEBytes, List.mem_cons, List.not_mem_nil, or_false] at hx
  rcases hx with rfl | rfl | rfl | rfl
  all_goals omega

/-- The hex digest determines the word tuple, for words below `2^32`. -/
theorem wordsHex_inj : ∀ s1 s2 : Nat × Nat × Nat × Nat,
    s1.1 < w32 → s1.2.1 < w32 → s1.2.2.1 < w32 → s1.2.2.2 < w32 →
    s2.1 < w32 → s2.2.1 < w32 → s2.2.2.1 < w32 → s2.2.2.2 < w32 →
    wordsHex s1 = wordsHex s2 → s1 = s2 := by
  rintro ⟨a1, b1, c1, d1⟩ ⟨a2, b2, c2, d2⟩ ha1 hb1 hc1 hd1 ha2 hb2 hc2 hd2 h
  simp only [w32] at ha1 hb1 hc1 hd1 ha2 hb2 hc2 hd2
  simp only [wordsHex] at h
  have hdata :
      (wordLEBytes a1 ++ wordLEBytes b1 ++ wordLEBytes c1 ++ wordLEBytes d1).flatMap byteHex
        = (wordLEBytes a2 ++ wordLEBytes b2 ++ wordLEBytes c2 ++ wordLEBytes d2).flatMap
            byteHex :=
    congrArg String.data h
  have hlt1 : ∀ x ∈ wordLEBytes a1 ++ wordLEBytes b1 ++ wordLEBytes c1 ++ wordLEBytes d1,
      x < 256 := by
    simp only [List.forall_mem_append]
    exact ⟨⟨⟨wordLEBytes_lt a1, wordLEBytes_lt b1⟩, wordLEBytes_lt c1⟩, wordLEBytes_lt d1⟩
  have hlt2 : ∀ x ∈ wordLEBytes a2 ++ wordLEBytes b2 ++ wordLEBytes c2 ++ wordLEBytes d2,
      x < 256 := by
    simp only [List.forall_mem_append]
    exact ⟨⟨⟨wordLEBytes_lt a2, wordLEBytes_lt b2⟩, wordLEBytes_lt c2⟩, wordLEBytes_lt d2⟩
  have hbytes := flatMap_byteHex_inj _ _ hlt1 hlt2 hdata
  simp only [wordLEBytes, List.cons_append, List.nil_append, List.cons.injEq,
    and_true] at hbytes
  simp only [Prod.mk.injEq]
  obtain ⟨e1, e2, e3, e4, e5, e6, e7, e8, e9, e10, e11, e12, e13, e14, e15, e16⟩ := hbytes
  refine ⟨by omega, by omega, by omega, by omega⟩

/-- Unfolding of the key function through the digest words, stated once so
later proofs can rewrite without forcing definitional unfolding. -/
theorem get_key_eq (t : String) : get_key t = wordsHex (md5Words (strBytes t)) := rfl

/-- The `a`/`b` string encoding of 129 booleans is injective. -/
theorem boolStr_injective : Function.Injective boolStr := by
  intro v1 v2 h
  have hl : List.ofFn (fun i => cond (v1 i) 'b' 'a')
      = List.ofFn (fun i => cond (v2 i) 'b' 'a') := congrArg String.data h
  have hf := List.ofFn_injective hl
  funext i
  have hi := congrFun hf i
  cases h1 : v1 i <;> cases h2 : v2 i <;>
    simp only [h1, h2, cond_true, cond_false] at hi ⊢ <;>
    first
      | rfl
      | exact absurd hi (by decide)

/-- C8 counterexample: the fingerprint cannot send every pair of byte-wise
distinct texts to distinct cache keys, because there are more texts of length
129 than there are 128-bit MD5 digests. -/
theorem get_key_not_injective_cex :
    ¬ (∀ t1 t2 : String, t1 ≠ t2 → get_key t1 ≠ get_key t2) := by
  intro hinj
  have hcard : (Finset.range (2 ^ 128)).card
      < (Finset.univ : Finset (Fin 129 → Bool)).card := by
    rw [Finset.card_range, Finset.card_univ, Fintype.card_fun, Fintype.card_bool,
      Fintype.card_fin]
    norm_num
  have hmaps : ∀ v ∈ (Finset.univ : Finset (Fin 129 → Bool)),
      md5Nat (strBytes (boolStr v)) ∈ Finset.range (2 ^ 128) := by
    intro v _
    rw [Finset.mem_range]
    exact md5Nat_lt _
  obtain ⟨v1, -, v2, -, hne, heq⟩ :=
    Finset.exists_ne_map_eq_of_card_lt_of_maps_to hcard hmaps
  have hwords := md5Nat_eq_words_eq _ _ heq
  have hkey : get_key (boolStr v1) = get_key (boolStr v2) := by
    rw [get_key_eq, get_key_eq, hwords]
  exact hinj _ _ (fun he => hne (boolStr_injective he)) hkey

/-- C8 amended: the fingerprint applies no normalization and byte-wise
distinct texts receive distinct cache keys whenever their MD5 digests differ
(in particular trailing-whitespace variants such as "hello" and "hello " are
cache-distinct); universal injectivity over all byte-wise distinct pairs is
impossible since keys range over only `2^128` digests. -/
theorem get_key_distinct_of_digest_ne (t1 t2 : String)
    (h : md5Words (strBytes t1) ≠ md5Words (strBytes t2)) :
    get_key t1 ≠ get_key t2 := by
  intro hk
  apply h
  have hb1 := md5Words_lt (strBytes t1)
  have hb2 := md5Words_lt (strBytes t2)
  exact wordsHex_inj _ _ hb1.1 hb1.2.1 hb1.2.2.1 hb1.2.2.2
    hb2.1 hb2.2.1 hb2.2.2.1 hb2.2.2.2 hk

/-- Witness for C8 amended: "hello" and "hello " (trailing space) have
different digests and therefore different cache keys. -/
theorem get_key_distinct_of_digest_ne_witness :
    md5Words (strBytes "hello") ≠ md5Words (strBytes "hello ") ∧
      get_key "hello" ≠ get_key "hello " :=
  ⟨by decide, get_key_distinct_of_digest_ne "hello" "hello " (by decide)⟩
